import Mathlib

/-!
Verification development for the events-booking web application
(`src/index.js`): a shallow embedding of its route handlers, session
handling and database effects, followed by theorems about the spec's
claims.

Modelling conventions:
* The three tables (`users`, `events`, `bookings`) are lists of records.
* Each `db.query(...)` call in the source becomes one `Query` value; a
  handler threads a state `St` holding the database and the log of
  queries it has issued.
* Query rejection (the failure mode of §4.1 of the spec) is modelled by
  a parameter `fails : Query → Bool`: a query `q` with `fails q = true`
  rejects, and the `Except` monad plays the role of the thrown error.
  A rejected query is still logged as issued.
* Dates are modelled as naturals, an arbitrary totally ordered stand-in
  for the SQL DATE domain; `ORDER BY date ASC` becomes an insertion sort
  on that order.
* `bcrypt` is an external library, out of scope per §1 of the spec; the
  Credential Service is therefore a structure bundling `hash`/`verify`
  with the contract of §4.2 and §8 (verify accepts the hash of the
  plaintext; the hash differs from the plaintext).
-/

/-- A row of the `users` table: id, username, stored password hash, role. -/
structure User where
  id : Nat
  username : String
  password : String
  role : String
deriving DecidableEq

/-- A row of the `events` table; `user_id` is `none` for the owner-less
events inserted by POST /admin/add. -/
structure Event where
  id : Nat
  title : String
  date : Nat
  location : String
  user_id : Option Nat
deriving DecidableEq

/-- A row of the `bookings` table. -/
structure Booking where
  id : Nat
  user_id : Nat
  event_id : Nat
deriving DecidableEq

/-- The database: the three tables the handlers touch. -/
structure DB where
  users : List User
  events : List Event
  bookings : List Booking
deriving DecidableEq

/-- One parameterized SQL statement of the source, one constructor each. -/
inductive Query where
  | selectUserByUsername (username : String)
  | insertUser (username password role : String)
  | selectAllEvents
  | selectEventsByOwner (userId : Nat)
  | insertEvent (title : String) (date : Nat) (location : String) (owner : Option Nat)
  | deleteEvent (id : Nat)
  | insertBooking (userId eventId : Nat)
deriving DecidableEq

/-- Handler-side state: the database plus the log of issued queries. -/
structure St where
  db : DB
  log : List Query
deriving DecidableEq

/-- Append an issued query to the log. -/
def pushLog (st : St) (q : Query) : St :=
  ⟨st.db, st.log ++ [q]⟩

/-- A rejected query, together with the state at the point of rejection. -/
abbrev Err := Query × St

/-- Date order on events, the order of `ORDER BY date ASC`. -/
def dateLe (a b : Event) : Prop := a.date ≤ b.date

instance : DecidableRel dateLe := fun a b => inferInstanceAs (Decidable (a.date ≤ b.date))

instance : IsTotal Event dateLe := ⟨fun a b => Nat.le_total a.date b.date⟩

instance : IsTrans Event dateLe := ⟨fun _ _ _ => Nat.le_trans⟩

/-- `ORDER BY date ASC`: sort a result set by date, ascending. -/
def sortByDate (l : List Event) : List Event := List.insertionSort dateLe l

/-- A fresh generated id for an insert into `users`. -/
def freshUserId (db : DB) : Nat := db.users.foldr (fun u m => max (u.id + 1) m) 0

/-- A fresh generated id for an insert into `events`. -/
def freshEventId (db : DB) : Nat := db.events.foldr (fun e m => max (e.id + 1) m) 0

/-- A fresh generated id for an insert into `bookings`. -/
def freshBookingId (db : DB) : Nat := db.bookings.foldr (fun b m => max (b.id + 1) m) 0

/-- `SELECT * FROM users WHERE username=$1`. -/
def qUsersByName (fails : Query → Bool) (username : String) (st : St) :
    Except Err (List User × St) :=
  let q := Query.selectUserByUsername username
  if fails q then .error (q, pushLog st q)
  else .ok (st.db.users.filter (fun u => u.username == username), pushLog st q)

/-- `INSERT INTO users (username, password, role) VALUES ($1, $2, $3)`. -/
def qInsertUser (fails : Query → Bool) (username password role : String) (st : St) :
    Except Err St :=
  let q := Query.insertUser username password role
  if fails q then .error (q, pushLog st q)
  else
    .ok ⟨⟨st.db.users ++ [⟨freshUserId st.db, username, password, role⟩],
          st.db.events, st.db.bookings⟩, (pushLog st q).log⟩

/-- `SELECT * FROM events ORDER BY date ASC`. -/
def qAllEvents (fails : Query → Bool) (st : St) : Except Err (List Event × St) :=
  let q := Query.selectAllEvents
  if fails q then .error (q, pushLog st q)
  else .ok (sortByDate st.db.events, pushLog st q)

/-- `SELECT * FROM events WHERE user_id = $1 ORDER BY date ASC`. -/
def qEventsByOwner (fails : Query → Bool) (uid : Nat) (st : St) :
    Except Err (List Event × St) :=
  let q := Query.selectEventsByOwner uid
  if fails q then .error (q, pushLog st q)
  else .ok (sortByDate (st.db.events.filter (fun e => e.user_id == some uid)), pushLog st q)

/-- `INSERT INTO events (title, date, location, user_id) VALUES ($1,$2,$3,$4)`
(with `owner = some uid`), or `INSERT INTO events (title, date, location)
VALUES ($1,$2,$3)` (with `owner = none`, the admin/add form). -/
def qInsertEvent (fails : Query → Bool) (title : String) (date : Nat)
    (location : String) (owner : Option Nat) (st : St) : Except Err St :=
  let q := Query.insertEvent title date location owner
  if fails q then .error (q, pushLog st q)
  else
    .ok ⟨⟨st.db.users,
          st.db.events ++ [⟨freshEventId st.db, title, date, location, owner⟩],
          st.db.bookings⟩, (pushLog st q).log⟩

/-- `DELETE FROM events WHERE id=$1`. -/
def qDeleteEvent (fails : Query → Bool) (id : Nat) (st : St) : Except Err St :=
  let q := Query.deleteEvent id
  if fails q then .error (q, pushLog st q)
  else
    .ok ⟨⟨st.db.users, st.db.events.filter (fun e => !(e.id == id)), st.db.bookings⟩,
         (pushLog st q).log⟩

/-- `INSERT INTO bookings (user_id, event_id) VALUES ($1, $2)`. -/
def qInsertBooking (fails : Query → Bool) (uid eid : Nat) (st : St) : Except Err St :=
  let q := Query.insertBooking uid eid
  if fails q then .error (q, pushLog st q)
  else
    .ok ⟨⟨st.db.users, st.db.events,
          st.db.bookings ++ [⟨freshBookingId st.db, uid, eid⟩]⟩, (pushLog st q).log⟩

/-- Modelled from the spec: the Credential Service (§4.2) wraps the external
`bcrypt` library, which is not part of this repository; §1 scopes it out as a
black box. `hash` and `verify` carry the contract of §4.2 and of the testable
property of §8: `verify` accepts the hash of the plaintext it was produced
from, and the stored hash is never equal to the plaintext. -/
structure Cred where
  hash : String → String
  verify : String → String → Bool
  verify_hash : ∀ p, verify p (hash p) = true
  hash_ne : ∀ p, hash p ≠ p

/-- A concrete credential service satisfying the contract, for evaluation. -/
def cred0 : Cred where
  hash p := "#" ++ p
  verify p h := h == "#" ++ p
  verify_hash p := by simp
  hash_ne p := by
    intro h
    have hlen := congrArg String.length h
    simp [String.length_append] at hlen
    exact absurd hlen (by decide)

/-- Responses a handler can produce; one constructor per `res.*` shape in
the source. Render constructors carry the data payload handed to the view. -/
inductive Response where
  | redirect (path : String)
  | send (body : String)
  | renderIndex (user : Option User) (events : List Event)
  | renderAdmin (user : User) (events : List Event)
  | renderConfirmation (user : User) (eventId : Nat)
  | renderSignup
  | renderLogin
  | renderCreateEvent (user : User)
deriving DecidableEq

/-- The HTTP status a response carries: Express defaults, 302 for
`res.redirect`, 200 for `res.send` and `res.render`. -/
def Response.status : Response → Nat
  | .redirect _ => 302
  | _ => 200

/-- The warning body sent when the signup username is taken. -/
def usernameTakenMsg : String := "⚠️ Username already taken. <a href=\x27/signup\x27>Try another</a>"

/-- The generic body sent when the signup try/catch catches a rejection. -/
def signupErrorMsg : String := "Error occurred. Please try again."

/-- The body sent when login credentials do not verify. -/
def invalidCredsMsg : String := "Invalid credentials. <a href=\x27/login\x27>Try again</a>"

/-- The body sent by an admin route to a non-admin session. -/
def accessDeniedMsg : String := "Access denied"

/-- The session slot: `req.session.user`, absent when not logged in. -/
abbrev Session := Option User

/-- The `requireLogin` middleware: no session user means redirect to
/login and abort; otherwise hand the session user to the handler. -/
def requireLogin (session : Session) : Response ⊕ User :=
  match session with
  | none => .inl (.redirect "/login")
  | some u => .inr u

/-- The urlencoded body of POST /signup; `role = none` models an absent
field and `some ""` an empty one (both falsy in the source's
`role || "user"`). -/
structure SignupBody where
  username : String
  password : String
  role : Option String
deriving DecidableEq

/-- The source's `role || "user"`: any falsy role (absent or empty) falls
back to "user"; any other string is used verbatim. -/
def roleOrDefault : Option String → String
  | none => "user"
  | some r => if r = "" then "user" else r

/-- The urlencoded body of POST /login. -/
structure LoginBody where
  username : String
  password : String
deriving DecidableEq

/-- The urlencoded body of the two event-creation forms. -/
structure EventBody where
  title : String
  date : Nat
  location : String
deriving DecidableEq

/-- GET /: logged-out sessions get an empty list with no query; admins get
all events, others their own, ordered by date ascending. -/
def getHome (fails : Query → Bool) (session : Session) (st : St) :
    Except Err (Response × St) :=
  match session with
  | none => .ok (.renderIndex none [], st)
  | some u =>
    if u.role == "admin" then do
      let (evs, st) ← qAllEvents fails st
      return (.renderIndex (some u) evs, st)
    else do
      let (evs, st) ← qEventsByOwner fails u.id st
      return (.renderIndex (some u) evs, st)

/-- GET /signup. -/
def getSignup : Response := .renderSignup

/-- POST /signup: existence check, then hash and insert; the whole body is
wrapped in the source's try/catch, so a rejected query is caught and turned
into the generic error message. -/
def postSignup (cs : Cred) (fails : Query → Bool) (body : SignupBody) (st : St) :
    Response × St :=
  let attempt : Except Err (Response × St) := do
    let (existing, st) ← qUsersByName fails body.username st
    if existing.length > 0 then
      return (.send usernameTakenMsg, st)
    else
      let hashed := cs.hash body.password
      let st ← qInsertUser fails body.username hashed (roleOrDefault body.role) st
      return (.redirect "/login", st)
  match attempt with
  | .ok r => r
  | .error (_, st) => (.send signupErrorMsg, st)

/-- GET /login. -/
def getLogin : Response := .renderLogin

/-- POST /login: look up the username; if a row is found and the password
verifies against its hash, set the session to that row and redirect to /;
otherwise leave the session as it was and send "Invalid credentials". -/
def postLogin (cs : Cred) (fails : Query → Bool) (body : LoginBody)
    (session : Session) (st : St) : Except Err (Response × Session × St) := do
  let (rows, st) ← qUsersByName fails body.username st
  match rows with
  | user :: _ =>
    if cs.verify body.password user.password then
      return (.redirect "/", some user, st)
    else
      return (.send invalidCredsMsg, session, st)
  | [] => return (.send invalidCredsMsg, session, st)

/-- The observable steps of GET /logout, in order. -/
inductive LogoutStep where
  | destroySession
  | respond (r : Response)
deriving DecidableEq

/-- GET /logout: `req.session.destroy(() => res.redirect("/"))` — the
redirect runs in the destruction callback, so destruction precedes it.
Returns the session after the handler and the ordered action trace. -/
def getLogout (_session : Session) : Session × List LogoutStep :=
  (none, [.destroySession, .respond (.redirect "/")])

/-- GET /create-event (login required): renders the form, no query. -/
def getCreateEvent (session : Session) : Response :=
  match requireLogin session with
  | .inl r => r
  | .inr u => .renderCreateEvent u

/-- POST /create-event (login required): insert an event owned by the
session user, redirect to /. -/
def postCreateEvent (fails : Query → Bool) (body : EventBody) (session : Session)
    (st : St) : Except Err (Response × St) :=
  match requireLogin session with
  | .inl r => .ok (r, st)
  | .inr u => do
    let st ← qInsertEvent fails body.title body.date body.location (some u.id) st
    return (.redirect "/", st)

/-- POST /book/:id (login required): insert a booking for the session user
and the given event id, render the confirmation view. -/
def postBook (fails : Query → Bool) (eventId : Nat) (session : Session)
    (st : St) : Except Err (Response × St) :=
  match requireLogin session with
  | .inl r => .ok (r, st)
  | .inr u => do
    let st ← qInsertBooking fails u.id eventId st
    return (.renderConfirmation u eventId, st)

/-- GET /admin (login required): non-admin sessions get "Access denied";
admins get every event ordered by date ascending in the admin view. -/
def getAdmin (fails : Query → Bool) (session : Session) (st : St) :
    Except Err (Response × St) :=
  match requireLogin session with
  | .inl r => .ok (r, st)
  | .inr u =>
    if !(u.role == "admin") then .ok (.send accessDeniedMsg, st)
    else do
      let (evs, st) ← qAllEvents fails st
      return (.renderAdmin u evs, st)

/-- POST /admin/add (login required): non-admin sessions get "Access
denied"; admins insert an owner-less event and are redirected to /admin. -/
def postAdminAdd (fails : Query → Bool) (body : EventBody) (session : Session)
    (st : St) : Except Err (Response × St) :=
  match requireLogin session with
  | .inl r => .ok (r, st)
  | .inr u =>
    if !(u.role == "admin") then .ok (.send accessDeniedMsg, st)
    else do
      let st ← qInsertEvent fails body.title body.date body.location none st
      return (.redirect "/admin", st)

/-- POST /admin/delete/:id (login required): non-admin sessions get
"Access denied"; admins delete the event and are redirected to /admin. -/
def postAdminDelete (fails : Query → Bool) (id : Nat) (session : Session)
    (st : St) : Except Err (Response × St) :=
  match requireLogin session with
  | .inl r => .ok (r, st)
  | .inr u =>
    if !(u.role == "admin") then .ok (.send accessDeniedMsg, st)
    else do
      let st ← qDeleteEvent fails id st
      return (.redirect "/admin", st)

/-! ## Concrete fixtures, used by witnesses and counterexamples -/

/-- A failure model in which no query rejects. -/
def noFail : Query → Bool := fun _ => false

/-- A failure model in which every query rejects. -/
def allFail : Query → Bool := fun _ => true

/-- A failure model in which exactly the user-insert query rejects. -/
def failInsertUser : Query → Bool := fun q =>
  match q with
  | Query.insertUser _ _ _ => true
  | _ => false

/-- A concrete admin user row. -/
def adminUser : User := ⟨1, "alice", "#pw", "admin"⟩

/-- A concrete regular user row. -/
def bobUser : User := ⟨2, "bob", "#pw", "user"⟩

/-- A concrete event owned by `bobUser`. -/
def evA : Event := ⟨10, "expo", 5, "hall", some 2⟩

/-- A concrete owner-less event, as POST /admin/add creates. -/
def evB : Event := ⟨11, "gala", 3, "park", none⟩

/-- A concrete event owned by `adminUser`. -/
def evC : Event := ⟨12, "fair", 4, "dock", some 1⟩

/-- A concrete database with two users and three events. -/
def db0 : DB := ⟨[adminUser, bobUser], [evA, evB, evC], []⟩

/-- A concrete handler state over `db0` with an empty log. -/
def st0 : St := ⟨db0, []⟩

/-- The empty database state. -/
def emptySt : St := ⟨⟨[], [], []⟩, []⟩

/-- Number of user rows carrying a given username, as the signup handler
measures it (`existing.rows.length`). -/
def usernameCount (db : DB) (name : String) : Nat :=
  (db.users.filter (fun u => u.username == name)).length

/-! ## Helper lemmas: canonical results of each handler branch -/

/-- POST /signup on a taken username answers the warning and leaves the
database untouched. -/
lemma postSignup_taken_eq (cs : Cred) (fails : Query → Bool) (body : SignupBody) (st : St)
    (hsel : fails (Query.selectUserByUsername body.username) = false)
    (htaken : 0 < usernameCount st.db body.username) :
    postSignup cs fails body st =
      (.send usernameTakenMsg, pushLog st (Query.selectUserByUsername body.username)) := by
  simp only [usernameCount] at htaken
  simp [postSignup, qUsersByName, hsel, Bind.bind, Except.bind, pure, Except.pure, htaken]

/-- POST /signup on a fresh username inserts the hashed row and redirects
to /login. -/
lemma postSignup_fresh_eq (cs : Cred) (fails : Query → Bool) (body : SignupBody) (st : St)
    (hsel : fails (Query.selectUserByUsername body.username) = false)
    (hins : fails (Query.insertUser body.username (cs.hash body.password)
              (roleOrDefault body.role)) = false)
    (hfresh : usernameCount st.db body.username = 0) :
    postSignup cs fails body st =
      (.redirect "/login",
       ⟨⟨st.db.users ++ [⟨freshUserId st.db, body.username, cs.hash body.password,
                          roleOrDefault body.role⟩],
         st.db.events, st.db.bookings⟩,
        st.log ++ [Query.selectUserByUsername body.username,
                   Query.insertUser body.username (cs.hash body.password)
                     (roleOrDefault body.role)]⟩) := by
  have hlen : (st.db.users.filter (fun u => u.username == body.username)).length = 0 := hfresh
  simp [postSignup, qUsersByName, qInsertUser, hsel, hins, Bind.bind, Except.bind,
    pure, Except.pure, hlen, pushLog]

/-- GET / for a logged-in admin returns all events sorted by date. -/
lemma getHome_admin_eq (fails : Query → Bool) (u : User) (st : St)
    (hrole : u.role = "admin") (hf : fails Query.selectAllEvents = false) :
    getHome fails (some u) st =
      .ok (.renderIndex (some u) (sortByDate st.db.events), pushLog st Query.selectAllEvents) := by
  simp [getHome, hrole, qAllEvents, hf]

/-- GET / for a logged-in non-admin returns that user's events sorted by
date. -/
lemma getHome_user_eq (fails : Query → Bool) (u : User) (st : St)
    (hrole : u.role ≠ "admin") (hf : fails (Query.selectEventsByOwner u.id) = false) :
    getHome fails (some u) st =
      .ok (.renderIndex (some u)
             (sortByDate (st.db.events.filter (fun e => e.user_id == some u.id))),
           pushLog st (Query.selectEventsByOwner u.id)) := by
  simp [getHome, hrole, qEventsByOwner, hf]

/-- GET /admin for a logged-in admin returns all events sorted by date. -/
lemma getAdmin_admin_eq (fails : Query → Bool) (u : User) (st : St)
    (hrole : u.role = "admin") (hf : fails Query.selectAllEvents = false) :
    getAdmin fails (some u) st =
      .ok (.renderAdmin u (sortByDate st.db.events), pushLog st Query.selectAllEvents) := by
  simp [getAdmin, requireLogin, hrole, qAllEvents, hf, Bind.bind, Except.bind,
    pure, Except.pure]

/-- POST /login when the username lookup finds a row and the password
verifies: session set to that row, redirect to /. -/
lemma postLogin_found_eq (cs : Cred) (fails : Query → Bool) (body : LoginBody)
    (session : Session) (st : St) (u : User) (rest : List User)
    (hsel : fails (Query.selectUserByUsername body.username) = false)
    (hfilter : st.db.users.filter (fun w => w.username == body.username) = u :: rest)
    (hv : cs.verify body.password u.password = true) :
    postLogin cs fails body session st =
      .ok (.redirect "/", some u, pushLog st (Query.selectUserByUsername body.username)) := by
  simp [postLogin, qUsersByName, hsel, hfilter, hv, Bind.bind, Except.bind,
    pure, Except.pure]

/-- POST /login when the username lookup finds no row: invalid credentials,
session untouched. -/
lemma postLogin_nouser_eq (cs : Cred) (fails : Query → Bool) (body : LoginBody)
    (session : Session) (st : St)
    (hsel : fails (Query.selectUserByUsername body.username) = false)
    (hfilter : st.db.users.filter (fun w => w.username == body.username) = []) :
    postLogin cs fails body session st =
      .ok (.send invalidCredsMsg, session, pushLog st (Query.selectUserByUsername body.username)) := by
  simp [postLogin, qUsersByName, hsel, hfilter, Bind.bind, Except.bind,
    pure, Except.pure]

/-- POST /login when a row is found but the password does not verify:
invalid credentials, session untouched. -/
lemma postLogin_badpw_eq (cs : Cred) (fails : Query → Bool) (body : LoginBody)
    (session : Session) (st : St) (u : User) (rest : List User)
    (hsel : fails (Query.selectUserByUsername body.username) = false)
    (hfilter : st.db.users.filter (fun w => w.username == body.username) = u :: rest)
    (hv : cs.verify body.password u.password = false) :
    postLogin cs fails body session st =
      .ok (.send invalidCredsMsg, session, pushLog st (Query.selectUserByUsername body.username)) := by
  simp [postLogin, qUsersByName, hsel, hfilter, hv, Bind.bind, Except.bind,
    pure, Except.pure]

/-- POST /admin/add for a logged-in admin: inserts an owner-less event and
redirects to /admin. -/
lemma postAdminAdd_admin_eq (fails : Query → Bool) (eb : EventBody) (u : User) (st : St)
    (hrole : u.role = "admin")
    (hf : fails (Query.insertEvent eb.title eb.date eb.location none) = false) :
    postAdminAdd fails eb (some u) st =
      .ok (.redirect "/admin",
           ⟨⟨st.db.users,
             st.db.events ++ [⟨freshEventId st.db, eb.title, eb.date, eb.location, none⟩],
             st.db.bookings⟩,
            st.log ++ [Query.insertEvent eb.title eb.date eb.location none]⟩) := by
  simp [postAdminAdd, requireLogin, hrole, qInsertEvent, hf, Bind.bind, Except.bind,
    pure, Except.pure, pushLog]

/-! ## Claim theorems -/

/-- C1: for every GET /admin request — with no active session the response
is a redirect to /login and the state (hence the query log) is untouched,
so no events query is issued; with a non-admin session the response is the
plain "Access denied" body at HTTP status 200 (not 403) and handling
aborts with no query; with an admin session the response renders the admin
view whose list contains every event row regardless of owner. -/
theorem admin_route_authorization (fails : Query → Bool) (st : St) (u : User) :
    (getAdmin fails none st = .ok (.redirect "/login", st))
    ∧ (u.role ≠ "admin" →
        getAdmin fails (some u) st = .ok (.send accessDeniedMsg, st)
        ∧ (Response.send accessDeniedMsg).status = 200
        ∧ (Response.send accessDeniedMsg).status ≠ 403)
    ∧ (u.role = "admin" → fails Query.selectAllEvents = false →
        getAdmin fails (some u) st =
          .ok (.renderAdmin u (sortByDate st.db.events), pushLog st Query.selectAllEvents)
        ∧ ∀ e ∈ st.db.events, e ∈ sortByDate st.db.events) := by
  refine ⟨rfl, fun hne => ?_, fun hrole hf => ?_⟩
  · have hb : (u.role == "admin") = false := by simpa using hne
    exact ⟨by simp [getAdmin, requireLogin, hb], rfl, by decide⟩
  · exact ⟨getAdmin_admin_eq fails u st hrole hf,
      fun e he => by simpa [sortByDate] using he⟩

/-- Witness for C1 at concrete inputs: `bobUser` (role "user") and
`adminUser` against the three-event database `db0`. -/
theorem admin_route_authorization_witness :
    getAdmin noFail none st0 = .ok (.redirect "/login", st0)
    ∧ getAdmin noFail (some bobUser) st0 = .ok (.send accessDeniedMsg, st0)
    ∧ getAdmin noFail (some adminUser) st0 =
        .ok (.renderAdmin adminUser (sortByDate st0.db.events),
             pushLog st0 Query.selectAllEvents) :=
  ⟨(admin_route_authorization noFail st0 bobUser).1,
   ((admin_route_authorization noFail st0 bobUser).2.1 (by decide)).1,
   ((admin_route_authorization noFail st0 adminUser).2.2 rfl rfl).1⟩

/-- C4: for every POST /signup request with a fresh username, the handler
redirects to /login and afterwards the users table has exactly one row with
that username — the freshly inserted one, whose role is `roleOrDefault` of
the request's role field (in particular "user" when the request supplies no
role) and whose stored password is the Credential Service hash of the
submitted plaintext; that hash differs from the plaintext and `verify`
accepts the plaintext against it. -/
theorem signup_fresh_username (cs : Cred) (fails : Query → Bool) (body : SignupBody) (st : St)
    (hsel : fails (Query.selectUserByUsername body.username) = false)
    (hins : fails (Query.insertUser body.username (cs.hash body.password)
              (roleOrDefault body.role)) = false)
    (hfresh : usernameCount st.db body.username = 0) :
    (postSignup cs fails body st).1 = .redirect "/login"
    ∧ (postSignup cs fails body st).2.db.users.filter (fun w => w.username == body.username)
        = [⟨freshUserId st.db, body.username, cs.hash body.password, roleOrDefault body.role⟩]
    ∧ (body.role = none → roleOrDefault body.role = "user")
    ∧ cs.hash body.password ≠ body.password
    ∧ cs.verify body.password (cs.hash body.password) = true := by
  have hfil : st.db.users.filter (fun w => w.username == body.username) = [] :=
    List.length_eq_zero.mp hfresh
  rw [postSignup_fresh_eq cs fails body st hsel hins hfresh]
  refine ⟨rfl, ?_, fun h => by simp [h, roleOrDefault],
    cs.hash_ne body.password, cs.verify_hash body.password⟩
  simp [List.filter_append, hfil]

/-- Witness for C4: signing up "carol" on the empty database with the
concrete credential service. -/
theorem signup_fresh_username_witness :
    (postSignup cred0 noFail ⟨"carol", "pw", none⟩ emptySt).1 = .redirect "/login"
    ∧ (postSignup cred0 noFail ⟨"carol", "pw", none⟩ emptySt).2.db.users.filter
        (fun w => w.username == "carol") = [⟨0, "carol", "#pw", "user"⟩]
    ∧ roleOrDefault none = "user"
    ∧ cred0.hash "pw" ≠ "pw"
    ∧ cred0.verify "pw" (cred0.hash "pw") = true := by
  have h := signup_fresh_username cred0 noFail ⟨"carol", "pw", none⟩ emptySt rfl rfl rfl
  exact ⟨h.1, by simpa using h.2.1, h.2.2.1 rfl, h.2.2.2.1, h.2.2.2.2⟩

/-- C5: for every POST /signup request whose username is already taken, the
handler answers the "already taken" warning and leaves the database (hence
the users table) unchanged; consequently signing up twice with the same
fresh username leaves exactly one row with that username and the second
attempt gets the warning. -/
theorem signup_username_collision (cs : Cred) (fails : Query → Bool) (body : SignupBody) (st : St)
    (hsel : fails (Query.selectUserByUsername body.username) = false)
    (hins : fails (Query.insertUser body.username (cs.hash body.password)
              (roleOrDefault body.role)) = false) :
    (0 < usernameCount st.db body.username →
      postSignup cs fails body st =
        (.send usernameTakenMsg, pushLog st (Query.selectUserByUsername body.username))
      ∧ (postSignup cs fails body st).2.db = st.db)
    ∧ (usernameCount st.db body.username = 0 →
      (postSignup cs fails body (postSignup cs fails body st).2).1 = .send usernameTakenMsg
      ∧ usernameCount (postSignup cs fails body (postSignup cs fails body st).2).2.db
          body.username = 1) := by
  constructor
  · intro htaken
    have he := postSignup_taken_eq cs fails body st hsel htaken
    exact ⟨he, by rw [he]; rfl⟩
  · intro hfresh
    have hfil : st.db.users.filter (fun w => w.username == body.username) = [] :=
      List.length_eq_zero.mp hfresh
    rw [postSignup_fresh_eq cs fails body st hsel hins hfresh]
    have hcount1 :
        usernameCount
          (⟨⟨st.db.users ++ [⟨freshUserId st.db, body.username, cs.hash body.password,
              roleOrDefault body.role⟩], st.db.events, st.db.bookings⟩,
            st.log ++ [Query.selectUserByUsername body.username,
              Query.insertUser body.username (cs.hash body.password)
                (roleOrDefault body.role)]⟩ : St).db body.username = 1 := by
      simp [usernameCount, List.filter_append, hfil]
    have he2 := postSignup_taken_eq cs fails body
      (⟨⟨st.db.users ++ [⟨freshUserId st.db, body.username, cs.hash body.password,
          roleOrDefault body.role⟩], st.db.events, st.db.bookings⟩,
        st.log ++ [Query.selectUserByUsername body.username,
          Query.insertUser body.username (cs.hash body.password)
            (roleOrDefault body.role)]⟩ : St) hsel (by rw [hcount1]; exact Nat.one_pos)
    rw [he2]
    exact ⟨rfl, by simpa [pushLog] using hcount1⟩

/-- Witness for C5: signing "carol" up twice on the empty database — the
second attempt is rejected and exactly one row remains. -/
theorem signup_username_collision_witness :
    (postSignup cred0 noFail ⟨"carol", "pw", none⟩
        (postSignup cred0 noFail ⟨"carol", "pw", none⟩ emptySt).2).1 = .send usernameTakenMsg
    ∧ usernameCount (postSignup cred0 noFail ⟨"carol", "pw", none⟩
        (postSignup cred0 noFail ⟨"carol", "pw", none⟩ emptySt).2).2.db "carol" = 1 :=
  (signup_username_collision cred0 noFail ⟨"carol", "pw", none⟩ emptySt rfl rfl).2 rfl

/-- POST /signup when the existence check itself rejects: the try/catch
catches and answers the generic failure message. -/
lemma postSignup_selfail_eq (cs : Cred) (fails : Query → Bool) (body : SignupBody) (st : St)
    (hsel : fails (Query.selectUserByUsername body.username) = true) :
    postSignup cs fails body st =
      (.send signupErrorMsg, pushLog st (Query.selectUserByUsername body.username)) := by
  simp [postSignup, qUsersByName, hsel, Bind.bind, Except.bind]

/-- POST /signup when the username is fresh but the insert rejects: the
try/catch catches and answers the generic failure message. -/
lemma postSignup_insfail_eq (cs : Cred) (fails : Query → Bool) (body : SignupBody) (st : St)
    (hsel : fails (Query.selectUserByUsername body.username) = false)
    (hfresh : usernameCount st.db body.username = 0)
    (hins : fails (Query.insertUser body.username (cs.hash body.password)
              (roleOrDefault body.role)) = true) :
    postSignup cs fails body st =
      (.send signupErrorMsg,
       pushLog (pushLog st (Query.selectUserByUsername body.username))
         (Query.insertUser body.username (cs.hash body.password) (roleOrDefault body.role))) := by
  have hlen : (st.db.users.filter (fun u => u.username == body.username)).length = 0 := hfresh
  simp [postSignup, qUsersByName, qInsertUser, hsel, hins, hlen, Bind.bind, Except.bind,
    pure, Except.pure, pushLog]

/-- C3: for every POST /login request with a working lookup — when the
lookup finds the row for the submitted username and `verify` accepts the
submitted password against that row's hash, the session is set to that full
row and the response redirects to /; when the username matches no row, or a
row is found but `verify` rejects, the session is returned unchanged and
the response is the "Invalid credentials" message. -/
theorem login_session_establishment (cs : Cred) (fails : Query → Bool) (body : LoginBody)
    (session : Session) (st : St)
    (hsel : fails (Query.selectUserByUsername body.username) = false) :
    (∀ u rest, st.db.users.filter (fun w => w.username == body.username) = u :: rest →
      cs.verify body.password u.password = true →
      postLogin cs fails body session st =
        .ok (.redirect "/", some u, pushLog st (Query.selectUserByUsername body.username)))
    ∧ (st.db.users.filter (fun w => w.username == body.username) = [] →
      postLogin cs fails body session st =
        .ok (.send invalidCredsMsg, session, pushLog st (Query.selectUserByUsername body.username)))
    ∧ (∀ u rest, st.db.users.filter (fun w => w.username == body.username) = u :: rest →
      cs.verify body.password u.password = false →
      postLogin cs fails body session st =
        .ok (.send invalidCredsMsg, session, pushLog st (Query.selectUserByUsername body.username))) :=
  ⟨fun u rest hfilter hv => postLogin_found_eq cs fails body session st u rest hsel hfilter hv,
   fun hfilter => postLogin_nouser_eq cs fails body session st hsel hfilter,
   fun u rest hfilter hv => postLogin_badpw_eq cs fails body session st u rest hsel hfilter hv⟩

/-- Witness for C3: against `db0`, logging in as "bob" with the right
password establishes the session; an unknown username and a wrong password
both answer "Invalid credentials" and leave the session unset. -/
theorem login_session_establishment_witness :
    postLogin cred0 noFail ⟨"bob", "pw"⟩ none st0 =
      .ok (.redirect "/", some bobUser, pushLog st0 (Query.selectUserByUsername "bob"))
    ∧ postLogin cred0 noFail ⟨"ghost", "pw"⟩ none st0 =
      .ok (.send invalidCredsMsg, none, pushLog st0 (Query.selectUserByUsername "ghost"))
    ∧ postLogin cred0 noFail ⟨"bob", "wrong"⟩ none st0 =
      .ok (.send invalidCredsMsg, none, pushLog st0 (Query.selectUserByUsername "bob")) :=
  ⟨(login_session_establishment cred0 noFail ⟨"bob", "pw"⟩ none st0 rfl).1
      bobUser [] (by decide) (by decide),
   (login_session_establishment cred0 noFail ⟨"ghost", "pw"⟩ none st0 rfl).2.1 (by decide),
   (login_session_establishment cred0 noFail ⟨"bob", "wrong"⟩ none st0 rfl).2.2
      bobUser [] (by decide) (by decide)⟩

/-- C6: for every GET / request — with no session the rendered list is
empty and the state (hence the query log) is untouched, so no events query
is issued; with an admin session the list is a permutation of all event
rows, sorted by date ascending; with a non-admin session the list holds
exactly the rows whose `user_id` is the session user's id (a permutation of
that owner filter), sorted by date ascending. -/
theorem home_event_visibility (fails : Query → Bool) (st : St) (u : User) :
    (getHome fails none st = .ok (.renderIndex none [], st))
    ∧ (u.role = "admin" → fails Query.selectAllEvents = false →
        getHome fails (some u) st =
          .ok (.renderIndex (some u) (sortByDate st.db.events), pushLog st Query.selectAllEvents)
        ∧ List.Perm (sortByDate st.db.events) st.db.events
        ∧ List.Sorted dateLe (sortByDate st.db.events))
    ∧ (u.role ≠ "admin" → fails (Query.selectEventsByOwner u.id) = false →
        getHome fails (some u) st =
          .ok (.renderIndex (some u)
                 (sortByDate (st.db.events.filter (fun w => w.user_id == some u.id))),
               pushLog st (Query.selectEventsByOwner u.id))
        ∧ (∀ e, e ∈ sortByDate (st.db.events.filter (fun w => w.user_id == some u.id)) ↔
              e ∈ st.db.events ∧ e.user_id = some u.id)
        ∧ List.Sorted dateLe (sortByDate (st.db.events.filter (fun w => w.user_id == some u.id)))
        ∧ List.Perm (sortByDate (st.db.events.filter (fun w => w.user_id == some u.id)))
            (st.db.events.filter (fun w => w.user_id == some u.id))) := by
  refine ⟨rfl, fun hrole hf => ?_, fun hrole hf => ?_⟩
  · exact ⟨getHome_admin_eq fails u st hrole hf,
      List.perm_insertionSort dateLe st.db.events,
      List.sorted_insertionSort dateLe st.db.events⟩
  · refine ⟨getHome_user_eq fails u st hrole hf, fun e => ?_,
      List.sorted_insertionSort dateLe _,
      List.perm_insertionSort dateLe _⟩
    simp [sortByDate, List.mem_filter]

/-- Witness for C6: the empty, admin and non-admin cases of GET / at the
concrete database `db0`. -/
theorem home_event_visibility_witness :
    getHome noFail none st0 = .ok (.renderIndex none [], st0)
    ∧ getHome noFail (some adminUser) st0 =
        .ok (.renderIndex (some adminUser) (sortByDate st0.db.events),
             pushLog st0 Query.selectAllEvents)
    ∧ getHome noFail (some bobUser) st0 =
        .ok (.renderIndex (some bobUser)
               (sortByDate (st0.db.events.filter (fun w => w.user_id == some bobUser.id))),
             pushLog st0 (Query.selectEventsByOwner bobUser.id)) :=
  ⟨(home_event_visibility noFail st0 adminUser).1,
   ((home_event_visibility noFail st0 adminUser).2.1 rfl rfl).1,
   ((home_event_visibility noFail st0 bobUser).2.2 (by decide) rfl).1⟩

/-- C2 counterexample: POST /signup forwards any non-empty `role` field of
the request body into the inserted row (`role || "user"` only replaces a
falsy value), so a body with role "banana" produces a user row whose role
is neither "user" nor "admin". -/
theorem signup_role_unconstrained_cex :
    ((postSignup cred0 noFail ⟨"mallory", "pw", some "banana"⟩ emptySt).2.db.users.all
        (fun u => u.role == "user" || u.role == "admin")) = false := by decide

/-- C2 amended: a row inserted by POST /signup carries exactly
`roleOrDefault` of the request's role field — the field verbatim when
present and non-empty, "user" otherwise — so the "user"-or-"admin"
invariant is preserved only for request bodies whose role field is absent,
empty, "user", or "admin". -/
theorem signup_role_stored_verbatim (cs : Cred) (fails : Query → Bool) (body : SignupBody)
    (st : St) (hinv : ∀ u ∈ st.db.users, u.role = "user" ∨ u.role = "admin") :
    ((roleOrDefault body.role = "user" ∨ roleOrDefault body.role = "admin") →
      ∀ u ∈ (postSignup cs fails body st).2.db.users, u.role = "user" ∨ u.role = "admin")
    ∧ (usernameCount st.db body.username = 0 →
       fails (Query.selectUserByUsername body.username) = false →
       fails (Query.insertUser body.username (cs.hash body.password)
               (roleOrDefault body.role)) = false →
       ∃ u, u ∈ (postSignup cs fails body st).2.db.users ∧ u.username = body.username
         ∧ u.role = roleOrDefault body.role) := by
  constructor
  · intro hrole u hu
    cases hsel : fails (Query.selectUserByUsername body.username) with
    | true =>
      rw [postSignup_selfail_eq cs fails body st hsel] at hu
      exact hinv u hu
    | false =>
      cases hfresh : decide (usernameCount st.db body.username = 0) with
      | false =>
        have hpos : 0 < usernameCount st.db body.username := by
          have := of_decide_eq_false hfresh
          omega
        rw [postSignup_taken_eq cs fails body st hsel hpos] at hu
        exact hinv u hu
      | true =>
        have hz : usernameCount st.db body.username = 0 := of_decide_eq_true hfresh
        cases hins : fails (Query.insertUser body.username (cs.hash body.password)
            (roleOrDefault body.role)) with
        | true =>
          rw [postSignup_insfail_eq cs fails body st hsel hz hins] at hu
          exact hinv u hu
        | false =>
          rw [postSignup_fresh_eq cs fails body st hsel hins hz] at hu
          simp only [List.mem_append, List.mem_singleton] at hu
          rcases hu with hu | hu
          · exact hinv u hu
          · subst hu
            exact hrole
  · intro hfresh hsel hins
    rw [postSignup_fresh_eq cs fails body st hsel hins hfresh]
    exact ⟨⟨freshUserId st.db, body.username, cs.hash body.password, roleOrDefault body.role⟩,
      by simp, rfl, rfl⟩

/-- Witness for the amended C2: a signup with role field "admin" on the
empty database leaves every row's role in the allowed set. -/
theorem signup_role_stored_verbatim_witness :
    ((postSignup cred0 noFail ⟨"eve", "pw", some "admin"⟩ emptySt).2.db.users.all
        (fun u => u.role == "user" || u.role == "admin")) = true := by
  have h := (signup_role_stored_verbatim cred0 noFail ⟨"eve", "pw", some "admin"⟩ emptySt
    (by simp [emptySt])).1 (by decide)
  rw [List.all_eq_true]
  intro u hu
  rcases h u hu with h1 | h1 <;> simp [h1]

/-- C7: a query rejection inside POST /signup is caught by its try/catch
and answered with the generic "Error occurred. Please try again." message
(both for the existence check and for the insert), while a rejection in any
other route — GET / (either branch), POST /login, POST /create-event,
POST /book/:id, GET /admin, POST /admin/add, POST /admin/delete/:id —
escapes the handler as an error. -/
theorem query_failure_asymmetry (cs : Cred) (fails : Query → Bool) (sb : SignupBody)
    (lb : LoginBody) (eb : EventBody) (u : User) (eid : Nat) (session : Session) (st : St) :
    (fails (Query.selectUserByUsername sb.username) = true →
      postSignup cs fails sb st =
        (.send signupErrorMsg, pushLog st (Query.selectUserByUsername sb.username)))
    ∧ (fails (Query.selectUserByUsername sb.username) = false →
       usernameCount st.db sb.username = 0 →
       fails (Query.insertUser sb.username (cs.hash sb.password) (roleOrDefault sb.role)) = true →
      postSignup cs fails sb st =
        (.send signupErrorMsg,
         pushLog (pushLog st (Query.selectUserByUsername sb.username))
           (Query.insertUser sb.username (cs.hash sb.password) (roleOrDefault sb.role))))
    ∧ (u.role = "admin" → fails Query.selectAllEvents = true →
      getHome fails (some u) st =
        .error (Query.selectAllEvents, pushLog st Query.selectAllEvents))
    ∧ (u.role ≠ "admin" → fails (Query.selectEventsByOwner u.id) = true →
      getHome fails (some u) st =
        .error (Query.selectEventsByOwner u.id, pushLog st (Query.selectEventsByOwner u.id)))
    ∧ (fails (Query.selectUserByUsername lb.username) = true →
      postLogin cs fails lb session st =
        .error (Query.selectUserByUsername lb.username,
                pushLog st (Query.selectUserByUsername lb.username)))
    ∧ (fails (Query.insertEvent eb.title eb.date eb.location (some u.id)) = true →
      postCreateEvent fails eb (some u) st =
        .error (Query.insertEvent eb.title eb.date eb.location (some u.id),
                pushLog st (Query.insertEvent eb.title eb.date eb.location (some u.id))))
    ∧ (fails (Query.insertBooking u.id eid) = true →
      postBook fails eid (some u) st =
        .error (Query.insertBooking u.id eid, pushLog st (Query.insertBooking u.id eid)))
    ∧ (u.role = "admin" → fails Query.selectAllEvents = true →
      getAdmin fails (some u) st =
        .error (Query.selectAllEvents, pushLog st Query.selectAllEvents))
    ∧ (u.role = "admin" → fails (Query.insertEvent eb.title eb.date eb.location none) = true →
      postAdminAdd fails eb (some u) st =
        .error (Query.insertEvent eb.title eb.date eb.location none,
                pushLog st (Query.insertEvent eb.title eb.date eb.location none)))
    ∧ (u.role = "admin" → fails (Query.deleteEvent eid) = true →
      postAdminDelete fails eid (some u) st =
        .error (Query.deleteEvent eid, pushLog st (Query.deleteEvent eid))) := by
  refine ⟨fun h => postSignup_selfail_eq cs fails sb st h,
    fun h1 h2 h3 => postSignup_insfail_eq cs fails sb st h1 h2 h3,
    fun hr hf => ?_, fun hr hf => ?_, fun hf => ?_, fun hf => ?_, fun hf => ?_,
    fun hr hf => ?_, fun hr hf => ?_, fun hr hf => ?_⟩
  · simp [getHome, hr, qAllEvents, hf, Bind.bind, Except.bind]
  · have hb : (u.role == "admin") = false := by simpa using hr
    simp [getHome, hb, qEventsByOwner, hf, Bind.bind, Except.bind]
  · simp [postLogin, qUsersByName, hf, Bind.bind, Except.bind]
  · simp [postCreateEvent, requireLogin, qInsertEvent, hf, Bind.bind, Except.bind]
  · simp [postBook, requireLogin, qInsertBooking, hf, Bind.bind, Except.bind]
  · simp [getAdmin, requireLogin, hr, qAllEvents, hf, Bind.bind, Except.bind]
  · simp [postAdminAdd, requireLogin, hr, qInsertEvent, hf, Bind.bind, Except.bind]
  · simp [postAdminDelete, requireLogin, hr, qDeleteEvent, hf, Bind.bind, Except.bind]

/-- Witness for C7: with every query rejecting, signup still answers the
generic message while login and the admin listing escape as errors; with
only the user-insert rejecting, signup catches that too. -/
theorem query_failure_asymmetry_witness :
    postSignup cred0 allFail ⟨"carol", "pw", none⟩ st0 =
      (.send signupErrorMsg, pushLog st0 (Query.selectUserByUsername "carol"))
    ∧ postSignup cred0 failInsertUser ⟨"carol", "pw", none⟩ emptySt =
      (.send signupErrorMsg,
       pushLog (pushLog emptySt (Query.selectUserByUsername "carol"))
         (Query.insertUser "carol" (cred0.hash "pw") (roleOrDefault none)))
    ∧ postLogin cred0 allFail ⟨"bob", "pw"⟩ none st0 =
      .error (Query.selectUserByUsername "bob", pushLog st0 (Query.selectUserByUsername "bob"))
    ∧ getAdmin allFail (some adminUser) st0 =
      .error (Query.selectAllEvents, pushLog st0 Query.selectAllEvents) :=
  ⟨(query_failure_asymmetry cred0 allFail ⟨"carol", "pw", none⟩ ⟨"bob", "pw"⟩
      ⟨"expo", 5, "hall"⟩ adminUser 0 none st0).1 rfl,
   ((query_failure_asymmetry cred0 failInsertUser ⟨"carol", "pw", none⟩ ⟨"bob", "pw"⟩
      ⟨"expo", 5, "hall"⟩ adminUser 0 none emptySt).2.1 rfl rfl rfl),
   ((query_failure_asymmetry cred0 allFail ⟨"carol", "pw", none⟩ ⟨"bob", "pw"⟩
      ⟨"expo", 5, "hall"⟩ adminUser 0 none st0).2.2.2.2.1 rfl),
   ((query_failure_asymmetry cred0 allFail ⟨"carol", "pw", none⟩ ⟨"bob", "pw"⟩
      ⟨"expo", 5, "hall"⟩ adminUser 0 none st0).2.2.2.2.2.2.2.1 rfl rfl)⟩

/-- C8: GET /logout nests the redirect inside the destruction callback, so
in the handler's action trace the session destruction strictly precedes the
redirect to /; the session it leaves behind is `none`, and every
requireLogin-guarded route treats that session as unauthenticated,
redirecting it to /login without touching state. -/
theorem logout_destroys_session_before_redirect (session : Session) (fails : Query → Bool)
    (st : St) (eb : EventBody) (eid : Nat) :
    (getLogout session).1 = none
    ∧ (getLogout session).2 = [LogoutStep.destroySession, LogoutStep.respond (.redirect "/")]
    ∧ requireLogin (getLogout session).1 = .inl (.redirect "/login")
    ∧ getCreateEvent (getLogout session).1 = .redirect "/login"
    ∧ postCreateEvent fails eb (getLogout session).1 st = .ok (.redirect "/login", st)
    ∧ postBook fails eid (getLogout session).1 st = .ok (.redirect "/login", st)
    ∧ getAdmin fails (getLogout session).1 st = .ok (.redirect "/login", st)
    ∧ postAdminAdd fails eb (getLogout session).1 st = .ok (.redirect "/login", st)
    ∧ postAdminDelete fails eid (getLogout session).1 st = .ok (.redirect "/login", st) :=
  ⟨rfl, rfl, rfl, rfl, rfl, rfl, rfl, rfl, rfl⟩

/-- C10: the two failing POST /login shapes — username matching no row, and
existing username with a password `verify` rejects — produce the same
"Invalid credentials" response body, so the response does not reveal
whether the username exists; neither run establishes a session. -/
theorem login_failure_uniform_response (cs : Cred) (fails : Query → Bool)
    (b1 b2 : LoginBody) (s1 s2 : Session) (st1 st2 : St) (u : User) (rest : List User)
    (hf1 : fails (Query.selectUserByUsername b1.username) = false)
    (hf2 : fails (Query.selectUserByUsername b2.username) = false)
    (h1 : st1.db.users.filter (fun w => w.username == b1.username) = [])
    (h2 : st2.db.users.filter (fun w => w.username == b2.username) = u :: rest)
    (hv : cs.verify b2.password u.password = false) :
    postLogin cs fails b1 s1 st1 =
      .ok (.send invalidCredsMsg, s1, pushLog st1 (Query.selectUserByUsername b1.username))
    ∧ postLogin cs fails b2 s2 st2 =
      .ok (.send invalidCredsMsg, s2, pushLog st2 (Query.selectUserByUsername b2.username)) :=
  ⟨postLogin_nouser_eq cs fails b1 s1 st1 hf1 h1,
   postLogin_badpw_eq cs fails b2 s2 st2 u rest hf2 h2 hv⟩

/-- Witness for C10: against `db0`, the unknown username "ghost" and the
wrong password for "bob" receive the identical response body. -/
theorem login_failure_uniform_response_witness :
    postLogin cred0 noFail ⟨"ghost", "pw"⟩ none st0 =
      .ok (.send invalidCredsMsg, none, pushLog st0 (Query.selectUserByUsername "ghost"))
    ∧ postLogin cred0 noFail ⟨"bob", "wrong"⟩ none st0 =
      .ok (.send invalidCredsMsg, none, pushLog st0 (Query.selectUserByUsername "bob")) :=
  login_failure_uniform_response cred0 noFail ⟨"ghost", "pw"⟩ ⟨"bob", "wrong"⟩ none none
    st0 st0 bobUser [] rfl rfl (by decide) (by decide) (by decide)

/-- C9: the GET / list of a logged-in non-admin comes from the
owner-filtered query, so every listed event carries that user's id — in
particular no owner-less event (user_id null) ever appears there; POST
/admin/add inserts exactly such an owner-less row, and owner-less rows do
appear in the admin listing of GET /admin. -/
theorem ownerless_events_hidden_from_users (fails : Query → Bool) (u : User) (st : St)
    (eb : EventBody) :
    (u.role ≠ "admin" → fails (Query.selectEventsByOwner u.id) = false →
      ∀ r evs st2, getHome fails (some u) st = .ok (.renderIndex r evs, st2) →
        ∀ e ∈ evs, e.user_id = some u.id ∧ e.user_id ≠ none)
    ∧ (u.role = "admin" → fails (Query.insertEvent eb.title eb.date eb.location none) = false →
        postAdminAdd fails eb (some u) st =
          .ok (.redirect "/admin",
               ⟨⟨st.db.users,
                 st.db.events ++ [⟨freshEventId st.db, eb.title, eb.date, eb.location, none⟩],
                 st.db.bookings⟩,
                st.log ++ [Query.insertEvent eb.title eb.date eb.location none]⟩)
        ∧ (⟨freshEventId st.db, eb.title, eb.date, eb.location, none⟩ : Event).user_id = none)
    ∧ (u.role = "admin" → fails Query.selectAllEvents = false →
        getAdmin fails (some u) st =
          .ok (.renderAdmin u (sortByDate st.db.events), pushLog st Query.selectAllEvents)
        ∧ ∀ e ∈ st.db.events, e.user_id = none → e ∈ sortByDate st.db.events) := by
  refine ⟨fun hne hf r evs st2 heq e he => ?_,
    fun hr hf => ⟨postAdminAdd_admin_eq fails eb u st hr hf, rfl⟩,
    fun hr hf => ⟨getAdmin_admin_eq fails u st hr hf,
      fun e he _ => by simpa [sortByDate] using he⟩⟩
  rw [getHome_user_eq fails u st hne hf] at heq
  simp only [Except.ok.injEq, Prod.mk.injEq, Response.renderIndex.injEq] at heq
  obtain ⟨⟨hr, hevs⟩, hst⟩ := heq
  rw [← hevs] at he
  simp only [sortByDate, List.mem_insertionSort, List.mem_filter, beq_iff_eq] at he
  exact ⟨he.2, by simp [he.2]⟩

/-- Witness for C9: bob's own event `evA` carries his id, an admin insert
produces an owner-less row, and the owner-less `evB` shows up in the admin
listing over `db0`. -/
theorem ownerless_events_hidden_from_users_witness :
    (evA.user_id = some bobUser.id ∧ evA.user_id ≠ none)
    ∧ (postAdminAdd noFail ⟨"rally", 9, "pier"⟩ (some adminUser) st0 =
        .ok (.redirect "/admin",
             ⟨⟨st0.db.users,
               st0.db.events ++ [⟨freshEventId st0.db, "rally", 9, "pier", none⟩],
               st0.db.bookings⟩,
              st0.log ++ [Query.insertEvent "rally" 9 "pier" none]⟩))
    ∧ getAdmin noFail (some adminUser) st0 =
        .ok (.renderAdmin adminUser (sortByDate st0.db.events), pushLog st0 Query.selectAllEvents)
    ∧ evB ∈ sortByDate st0.db.events :=
  ⟨(ownerless_events_hidden_from_users noFail bobUser st0 ⟨"rally", 9, "pier"⟩).1
      (by decide) rfl (some bobUser) [evA] (pushLog st0 (Query.selectEventsByOwner bobUser.id))
      rfl evA (by decide),
   ((ownerless_events_hidden_from_users noFail adminUser st0 ⟨"rally", 9, "pier"⟩).2.1
      rfl rfl).1,
   ((ownerless_events_hidden_from_users noFail adminUser st0 ⟨"rally", 9, "pier"⟩).2.2
      rfl rfl).1,
   ((ownerless_events_hidden_from_users noFail adminUser st0 ⟨"rally", 9, "pier"⟩).2.2
      rfl rfl).2 evB (by decide) rfl⟩
